import Mathlib

/-!
Verification of the ov-checkin worker core: the login-polling state machine
(`polling-service.ts`), the check-in orchestrator (`checkin-scheduler.ts`),
the token lifecycle helpers (`lib/storage.ts`, `lib/checkin-utils.ts`) and the
one-time-link handling (`lib/auth-utils.ts`), shallowly embedded in Lean.

The KV namespace is modelled as a typed record of the key families the code
actually uses (`polling_*` session documents, `polling_*_uuid` bindings, the
single `wechat_token` record, and `onetime_*` link records).  External HTTP
collaborators (the WeChat poll endpoint, the token-exchange endpoint, the
check-in endpoint, the mailer) are modelled as oracle inputs carrying the raw
response data that the source code then parses and classifies; notification
and link-minting side effects are recorded in an explicit effect list.
-/

/-- Truthiness of an optional string value in JavaScript: present and
non-empty. Used where the source guards with `if (someString)`. -/
def strTruthy : Option String → Bool
  | none => false
  | some s => s ≠ ""

/-- Truthiness of an optional number value in JavaScript: present and
non-zero. Used where the source guards with `if (someNumber)` or uses
`someNumber || fallback`. -/
def intTruthy : Option Int → Bool
  | none => false
  | some n => n ≠ 0

/-- Modelled from the spec: the `WeChatLoginStatus` enum is imported from
`types` but the enum declaration itself is not among the provided sources;
the constructors follow the spec state vocabulary WAITING, SCANNED,
CONFIRMED, EXPIRED, ERROR plus the SERVER_ERROR member referenced by
`polling-service.ts` line 71. -/
inductive WeChatLoginStatus
  | WAITING
  | SCANNED
  | CONFIRMED
  | EXPIRED
  | ERROR
  | SERVER_ERROR
deriving DecidableEq

/-- A stored polling-session document (`PollingStatus` in `types`). -/
structure PollingStatus where
  status : WeChatLoginStatus
  message : Option String := none
  wxCode : Option String := none
  timestamp : Int
deriving DecidableEq

/-- The stored credential record (`TokenInfo` in the source). -/
structure TokenInfo where
  token : String
  expire : Int
deriving DecidableEq

/-- The payload stored for a one-time login link by
`AuthUtils.generateOneTimeLink` via `KVStorage.storeOneTimeLink`. -/
structure OneTimeData where
  purpose : String
  createdAt : Int
  expiresAt : Option Int := none
deriving DecidableEq

/-- The TOKEN_KV namespace, split by the key families the code uses:
session documents keyed by pollingId, `_uuid` bindings, the single
`wechat_token` record (with the TTL passed to its last put), and
`onetime_*` records. -/
structure KV where
  sessions : List (String × PollingStatus) := []
  uuids : List (String × String) := []
  token : Option TokenInfo := none
  tokenTtl : Option Int := none
  onetime : List (String × OneTimeData) := []
deriving DecidableEq

/-- `env.TOKEN_KV.put(pollingId, ...)`: upsert of a session document
(modelled as prepend; `List.lookup` returns the most recent write). -/
def KV.putSession (kv : KV) (pid : String) (ps : PollingStatus) : KV :=
  { kv with sessions := (pid, ps) :: kv.sessions }

/-- Raw data of one response of the WeChat long-poll endpoint, as consumed
by `WeChatUtils.pollWeChatLogin`: HTTP status, and the `wx_errcode` /
`wx_code` values scraped from the body (absent when the regex does not
match). -/
structure WxRawPoll where
  httpOk : Bool := true
  httpStatus : Int := 200
  httpStatusText : String := ""
  errcode : Option Int := none
  wxCode : Option String := none
deriving DecidableEq

/-- `PollingResponse` in `types`: the normalized poll outcome. -/
structure PollingResponse where
  success : Bool
  status : Int
  wxCode : Option String := none
  message : String
deriving DecidableEq

/-- `const status = errcode || response.status` of `pollWeChatLogin`
(0 and null are falsy). -/
def pollFallbackStatus (raw : WxRawPoll) : Int :=
  match raw.errcode with
  | some e => if e = 0 then raw.httpStatus else e
  | none => raw.httpStatus

/-- `WeChatUtils.pollWeChatLogin` (`lib/wechat-utils.ts` lines 178-277):
validates the uuid, classifies the HTTP failure, then maps `wx_errcode`
405 (with a code) / 403 / 404 / 408 to a successful response and anything
else to a failure; a thrown error is caught and reported with status 0. -/
def pollWeChatLogin (uuid : String) (raw : WxRawPoll) : PollingResponse :=
  if uuid.length < 10 then
    { success := false, status := 0, message := "Invalid UUID format: " ++ uuid }
  else if raw.httpOk = false then
    { success := false, status := raw.httpStatus,
      message := "HTTP " ++ toString raw.httpStatus ++ ": " ++ raw.httpStatusText }
  else if raw.errcode = some 405 ∧ strTruthy raw.wxCode then
    { success := true, status := 405, wxCode := raw.wxCode, message := "扫码成功" }
  else if raw.errcode = some 403 then
    { success := true, status := 403, message := "二维码已过期，请重试" }
  else if raw.errcode = some 404 then
    { success := true, status := 404, message := "等待扫描二维码" }
  else if pollFallbackStatus raw = 408 then
    { success := true, status := 408, message := "二维码已扫描，等待确认" }
  else
    { success := false, status := pollFallbackStatus raw,
      message := "未知状态码: " ++ toString (pollFallbackStatus raw) }

/-- Raw data of one response of the token-exchange endpoint, as consumed by
`WeChatUtils.exchangeWeChatCode`: HTTP status and the `Data.Token` /
`Data.Expire` fields of the JSON body (absent when missing). -/
structure WxRawExchange where
  httpOk : Bool := true
  httpStatus : Int := 200
  httpStatusText : String := ""
  errorText : String := ""
  dataToken : Option String := none
  dataExpire : Option Int := none
deriving DecidableEq

/-- `TokenExchangeResponse` in `types`. -/
structure TokenExchangeResponse where
  success : Bool
  token : Option String := none
  expire : Option Int := none
  message : Option String := none
deriving DecidableEq

/-- `WeChatUtils.exchangeWeChatCode` (`lib/wechat-utils.ts` lines 282-342):
fails on a non-OK HTTP status; succeeds only when BOTH `Data.Token` and
`Data.Expire` are truthy, returning the bearer token and the provider
expiry; otherwise the thrown error is caught and reported as failure. -/
def exchangeWeChatCode (raw : WxRawExchange) : TokenExchangeResponse :=
  if raw.httpOk = false then
    { success := false,
      message := some ("HTTP " ++ toString raw.httpStatus ++ ": " ++ raw.httpStatusText
        ++ " - " ++ raw.errorText) }
  else if strTruthy raw.dataToken ∧ intTruthy raw.dataExpire then
    { success := true,
      token := some ("Bearer " ++ raw.dataToken.getD ""),
      expire := raw.dataExpire }
  else
    { success := false, message := some "❌ 获取 Token 失败" }

/-- The TTL formula shared by `polling-service.ts` line 104 and
`KVStorage.setToken` (`lib/storage.ts`):
`Math.max(300, Math.floor((expire - Date.now()) / 1000))`. -/
def computeTtlSeconds (expiresAt now : Int) : Int :=
  max 300 ((expiresAt - now).fdiv 1000)

/-- `KVStorage.setToken`: persists the credential under `wechat_token`
with the computed TTL. -/
def setToken (t : TokenInfo) (now : Int) (kv : KV) : KV :=
  { kv with token := some t, tokenTtl := some (computeTtlSeconds t.expire now) }

/-- Oracle inputs of one `processPollingSession` invocation: the clock, the
raw provider responses, and whether the mailer throws (`sendEmail` faults
are the only unguarded awaits between the token put and the final session
put; the surrounding try/catch swallows them). -/
structure PollEnv where
  now : Int
  rawPoll : WxRawPoll := {}
  rawExchange : WxRawExchange := {}
  emailFault : Bool := false

/-- The terminal-status guard of `polling-service.ts` line 71:
`[CONFIRMED, EXPIRED, SERVER_ERROR, ERROR].includes(status)`. -/
def isTerminalGuard : WeChatLoginStatus → Bool
  | .CONFIRMED => true
  | .EXPIRED => true
  | .SERVER_ERROR => true
  | .ERROR => true
  | _ => false

/-- Modelled from the spec: the numeric values of the `WeChatLoginStatus`
enum are not among the provided sources.  `polling-service.ts` line 92
assigns the provider errcode directly to the session status ("直接使用微信
errcode 状态码"), and the deprecated `LoginPolling.handlePollResponse` in
the sources maps 404 to waiting, 408 to scanned, 405 to confirmed, 403 to
expired; this function performs that identification. -/
def statusOfCode (code : Int) : WeChatLoginStatus :=
  if code = 404 then .WAITING
  else if code = 408 then .SCANNED
  else if code = 405 then .CONFIRMED
  else if code = 403 then .EXPIRED
  else .ERROR

/-- `expireTime = tokenResult.expire || (Date.now() + 3*24*60*60*1000)`
(`polling-service.ts` line 103). -/
def exchangeExpireTime (env : PollEnv) : Int :=
  match (exchangeWeChatCode env.rawExchange).expire with
  | some e => if e = 0 then env.now + 259200000 else e
  | none => env.now + 259200000

/-- The `wechat_token` put of `polling-service.ts` lines 107-114. -/
def tokenStoreKV (env : PollEnv) (kv : KV) : KV :=
  { kv with
    token := some { token := (exchangeWeChatCode env.rawExchange).token.getD "",
                    expire := exchangeExpireTime env },
    tokenTtl := some (computeTtlSeconds (exchangeExpireTime env) env.now) }

/-- The code-exchange branch of `processPollingSession` (lines 98-174),
entered with the session document already carrying the poll status,
message and wxCode.  On `tokenResult.success && tokenResult.token` the
credential is stored, the success mail is sent (a mailer fault is caught
by the outer try, leaving the session document unwritten), the check-in
trigger is fired (its own try/catch never escapes) and the session is
persisted as CONFIRMED; otherwise the session is persisted as ERROR with
the exchange message. -/
def processExchange (env : PollEnv) (pid : String) (kv : KV) (ps2 : PollingStatus) : KV :=
  if (exchangeWeChatCode env.rawExchange).success = true
      ∧ strTruthy (exchangeWeChatCode env.rawExchange).token then
    if env.emailFault then
      tokenStoreKV env kv
    else
      (tokenStoreKV env kv).putSession pid { ps2 with status := .CONFIRMED }
  else
    kv.putSession pid
      { ps2 with status := .ERROR, message := (exchangeWeChatCode env.rawExchange).message }

/-- The poll-and-update part of `processPollingSession` (lines 84-180),
entered with the session document and the bound uuid in hand. -/
def processWithUuid (env : PollEnv) (pid : String) (kv : KV) (ps : PollingStatus)
    (uuid : String) : KV :=
  if (pollWeChatLogin uuid env.rawPoll).success = false then
    kv.putSession pid
      { ps with status := .ERROR, message := some (pollWeChatLogin uuid env.rawPoll).message }
  else if strTruthy (pollWeChatLogin uuid env.rawPoll).wxCode then
    processExchange env pid kv
      { ps with status := statusOfCode (pollWeChatLogin uuid env.rawPoll).status,
                message := some (pollWeChatLogin uuid env.rawPoll).message,
                wxCode := (pollWeChatLogin uuid env.rawPoll).wxCode }
  else
    kv.putSession pid
      { ps with status := statusOfCode (pollWeChatLogin uuid env.rawPoll).status,
                message := some (pollWeChatLogin uuid env.rawPoll).message }

/-- The body of `processPollingSession` after the session document was
found: the terminal guard, then the `_uuid` lookup, then the poll. -/
def processWithSession (env : PollEnv) (pid : String) (kv : KV) (ps : PollingStatus) : KV :=
  if isTerminalGuard ps.status then kv
  else
    match kv.uuids.lookup (pid ++ "_uuid") with
    | none => kv
    | some uuid => processWithUuid env pid kv ps uuid

/-- `processPollingSession` (`polling-service.ts` lines 57-187).  The whole
body runs inside a try/catch whose handler only logs, so the function is
total: every outcome, including a mailer fault, yields a well-defined
store. -/
def processPollingSession (env : PollEnv) (pid : String) (kv : KV) : KV :=
  match kv.sessions.lookup pid with
  | none => kv
  | some ps => processWithSession env pid kv ps

/-- The response shape of `getPollingStatus`. -/
structure StatusResult where
  success : Bool
  status : Option WeChatLoginStatus := none
  message : Option String := none
  error : Option String := none
deriving DecidableEq

/-- `getPollingStatus` (`polling-service.ts` lines 190-229): looks the
session up; when more than five minutes have passed since the stored
`timestamp` it overwrites the status with EXPIRED, persists, and reports
the (possibly rewritten) status and last message. -/
def getPollingStatus (now : Int) (pid : String) (kv : KV) : StatusResult × KV :=
  match kv.sessions.lookup pid with
  | none => ({ success := false, error := some "轮询会话不存在或已过期" }, kv)
  | some ps =>
    if now - ps.timestamp > 5 * 60 * 1000 then
      ({ success := true, status := some WeChatLoginStatus.EXPIRED, message := ps.message },
        kv.putSession pid { ps with status := WeChatLoginStatus.EXPIRED })
    else
      ({ success := true, status := some ps.status, message := ps.message }, kv)

/-- The `/login-status` handler path of `checkin-scheduler.ts` (lines
173-181): one `processPollingSession` tick followed by `getPollingStatus`.
`now2` is the clock value at the `getPollingStatus` read. -/
def loginStatusTick (env : PollEnv) (now2 : Int) (pid : String) (kv : KV) :
    StatusResult × KV :=
  getPollingStatus now2 pid (processPollingSession env pid kv)

/-- `startPollingSession` (`polling-service.ts` lines 17-54): stores the
initial WAITING document with the creation timestamp and binds the uuid.
The generated pollingId is passed in. -/
def startPollingSession (uuid : String) (pid : String) (now : Int) (kv : KV) : KV :=
  { kv.putSession pid { status := WeChatLoginStatus.WAITING, timestamp := now } with
    uuids := (pid ++ "_uuid", uuid) :: kv.uuids }

/-- `CheckinResult` in `types`. -/
structure CheckinResult where
  success : Bool
  message : String
deriving DecidableEq

/-- Whether one character list occurs contiguously at the front of
another. -/
def startsWithSeq : List Char → List Char → Bool
  | [], _ => true
  | _ :: _, [] => false
  | p :: ps, c :: cs => (p = c) && startsWithSeq ps cs

/-- Whether one character list occurs contiguously anywhere in another
(the model of JavaScript `String.prototype.includes`). -/
def containsSeq (pat : List Char) : List Char → Bool
  | [] => startsWithSeq pat []
  | c :: rest => startsWithSeq pat (c :: rest) || containsSeq pat rest

/-- `description.includes('打卡成功')` of `CheckinUtils.submitCheckIn`. -/
def checkinSuccessMsg (d : String) : Bool :=
  containsSeq "打卡成功".toList d.toList

/-- `CheckinUtils.submitCheckIn` (`lib/checkin-utils.ts` lines 60-119),
with the check-in endpoint response as oracle: `none` models a thrown
transport error (caught, reported as failure), `some d` the `Description`
field of the response; success iff the description contains 打卡成功. -/
def submitCheckIn (resp : Option String) : CheckinResult :=
  match resp with
  | none => { success := false, message := "Network error" }
  | some d =>
    if checkinSuccessMsg d then { success := true, message := d }
    else { success := false, message := d }

/-- Notification kinds sent through `sendEmail` by the orchestrator. -/
inductive NotifyKind
  | checkinSuccess
  | checkinSoftFailure
  | loginRequired
  | loginSuccess
  | systemError
deriving DecidableEq

/-- Observable side effects of one orchestrator tick: a call of the
check-in endpoint, a notification, or the minting (storing) of a one-time
login link. -/
inductive Effect
  | checkinCall (token : String)
  | notify (kind : NotifyKind)
  | mintLink (linkToken : String)
deriving DecidableEq

/-- `CheckinService.executeCheckin` (`lib/checkin-service`): performs the
check-in, then sends the success mail or the soft-failure reminder, and
returns the result unchanged. -/
def executeCheckin (token : String) (resp : Option String) : CheckinResult × List Effect :=
  if (submitCheckIn resp).success then
    (submitCheckIn resp, [Effect.checkinCall token, Effect.notify NotifyKind.checkinSuccess])
  else
    (submitCheckIn resp, [Effect.checkinCall token, Effect.notify NotifyKind.checkinSoftFailure])

/-- `KVStorage.storeOneTimeLink` (`lib/storage.ts`): stores the payload
under `onetime_{token}`. -/
def storeOneTimeLink (tok : String) (d : OneTimeData) (kv : KV) : KV :=
  { kv with onetime := (tok, d) :: kv.onetime }

/-- `AuthUtils.generateOneTimeLink` (`lib/auth-utils.ts` lines 20-38):
mints a fresh random token (passed in as `rnd`), stores it with purpose
`wechat_auth` and a 24-hour expiry, and returns it. -/
def generateOneTimeLink (now : Int) (rnd : String) (kv : KV) : String × KV :=
  (rnd, storeOneTimeLink rnd
    { purpose := "wechat_auth", createdAt := now, expiresAt := some (now + 86400000) } kv)

/-- `handleAuthenticationRequired` (`checkin-scheduler.ts` lines 224-253):
mints a one-time link and sends the login-required mail. -/
def handleAuthenticationRequired (now : Int) (rnd : String) (kv : KV) : KV × List Effect :=
  ((generateOneTimeLink now rnd kv).2,
    [Effect.mintLink (generateOneTimeLink now rnd kv).1, Effect.notify NotifyKind.loginRequired])

/-- `TokenValidator.isTokenValid` (`lib/storage.ts` lines 322-330):
`tokenInfo !== null && tokenInfo.expire > Date.now()`; this is also the
guard of the scheduler tick (`checkin-scheduler.ts` line 40). -/
def isTokenValid (r : Option TokenInfo) (now : Int) : Bool :=
  match r with
  | none => false
  | some t => decide (t.expire > now)

/-- The `scheduled` handler of `checkin-scheduler.ts` (lines 30-91): with a
stored, unexpired credential it runs `CheckinService.executeCheckin`; on
any reported failure it falls into `handleAuthenticationRequired`; without
a valid credential it goes to `handleAuthenticationRequired` directly.
`rnd` is the random token minted for a new link, `resp` the check-in
endpoint oracle. -/
def scheduled (now : Int) (rnd : String) (resp : Option String) (kv : KV) : KV × List Effect :=
  match kv.token with
  | some t =>
    if t.expire > now then
      if (executeCheckin t.token resp).1.success then
        (kv, (executeCheckin t.token resp).2)
      else
        ((handleAuthenticationRequired now rnd kv).1,
          (executeCheckin t.token resp).2 ++ (handleAuthenticationRequired now rnd kv).2)
    else
      handleAuthenticationRequired now rnd kv
  | none => handleAuthenticationRequired now rnd kv

/-- `KVStorage.consumeOneTimeLink` (`lib/storage.ts` lines 286-297): reads
the record and, exactly when one was found, deletes it; returns the record
as read. -/
def consumeOneTimeLink (tok : String) (kv : KV) : Option OneTimeData × KV :=
  match kv.onetime.lookup tok with
  | none => (none, kv)
  | some d => (some d, { kv with onetime := kv.onetime.filter (fun p => p.1 != tok) })

/-- `if (data.expiresAt && data.expiresAt < Date.now())` of
`AuthUtils.validateOneTimeLink` (0 is falsy). -/
def oneTimeExpiredCheck (expiresAt : Option Int) (now : Int) : Bool :=
  match expiresAt with
  | none => false
  | some e => if e = 0 then false else decide (e < now)

/-- The post-consumption checks of `AuthUtils.validateOneTimeLink`: the
purpose must be `wechat_auth` and the record must not be expired. -/
def validateOneTimeChecks (now : Int) (d : OneTimeData) : Bool :=
  if d.purpose != "wechat_auth" then false
  else if oneTimeExpiredCheck d.expiresAt now then false
  else true

/-- `AuthUtils.validateOneTimeLink` (`lib/auth-utils.ts` lines 43-70):
rejects short tokens, then consumes (deletes) the stored record as soon as
one is found, and only afterwards checks the purpose and expiry fields
(the store mutation is the same on every post-consumption branch). -/
def validateOneTimeLink (now : Int) (tok : String) (kv : KV) : Bool × KV :=
  if tok.length < 32 then (false, kv)
  else
    match (consumeOneTimeLink tok kv).1 with
    | none => (false, (consumeOneTimeLink tok kv).2)
    | some d => (validateOneTimeChecks now d, (consumeOneTimeLink tok kv).2)

/-- A freshly put session document is what a subsequent lookup returns. -/
theorem lookup_putSession_self (kv : KV) (pid : String) (ps : PollingStatus) :
    (kv.putSession pid ps).sessions.lookup pid = some ps := by
  simp [KV.putSession, List.lookup]

/-- `processExchange` leaves a document for `pid` in place and never
touches its `timestamp`. -/
theorem processExchange_frame (env : PollEnv) (pid : String) (kv : KV)
    (ps2 : PollingStatus) (ps0 : PollingStatus)
    (h : kv.sessions.lookup pid = some ps0) (ht : ps0.timestamp = ps2.timestamp) :
    ∃ ps', (processExchange env pid kv ps2).sessions.lookup pid = some ps' ∧
      ps'.timestamp = ps2.timestamp := by
  unfold processExchange
  split
  · split
    · exact ⟨ps0, h, ht⟩
    · exact ⟨_, lookup_putSession_self .., rfl⟩
  · exact ⟨_, lookup_putSession_self .., rfl⟩

/-- Reduction: a found session document enters `processWithSession`. -/
theorem processPollingSession_eq_some (env : PollEnv) (pid : String) (kv : KV)
    (ps : PollingStatus) (h : kv.sessions.lookup pid = some ps) :
    processPollingSession env pid kv = processWithSession env pid kv ps := by
  unfold processPollingSession
  rw [h]

/-- Reduction: a terminal document short-circuits `processWithSession`. -/
theorem processWithSession_terminal (env : PollEnv) (pid : String) (kv : KV)
    (ps : PollingStatus) (hterm : isTerminalGuard ps.status = true) :
    processWithSession env pid kv ps = kv := by
  unfold processWithSession
  simp [hterm]

/-- Reduction: a non-terminal document with a bound uuid enters
`processWithUuid`. -/
theorem processWithSession_uuid (env : PollEnv) (pid : String) (kv : KV)
    (ps : PollingStatus) (uuid : String)
    (hterm : isTerminalGuard ps.status = false)
    (huu : kv.uuids.lookup (pid ++ "_uuid") = some uuid) :
    processWithSession env pid kv ps = processWithUuid env pid kv ps uuid := by
  unfold processWithSession
  simp [hterm, huu]

/-- Reduction: a non-terminal document without a bound uuid is left
alone. -/
theorem processWithSession_nouuid (env : PollEnv) (pid : String) (kv : KV)
    (ps : PollingStatus)
    (hterm : isTerminalGuard ps.status = false)
    (huu : kv.uuids.lookup (pid ++ "_uuid") = none) :
    processWithSession env pid kv ps = kv := by
  unfold processWithSession
  simp [hterm, huu]

/-- `processPollingSession` leaves a present document present and never
touches its `timestamp`. -/
theorem processPollingSession_frame (env : PollEnv) (pid : String) (kv : KV)
    (ps : PollingStatus) (h : kv.sessions.lookup pid = some ps) :
    ∃ ps', (processPollingSession env pid kv).sessions.lookup pid = some ps' ∧
      ps'.timestamp = ps.timestamp := by
  rw [processPollingSession_eq_some env pid kv ps h]
  by_cases hterm : isTerminalGuard ps.status = true
  · rw [processWithSession_terminal env pid kv ps hterm]
    exact ⟨ps, h, rfl⟩
  · rw [Bool.not_eq_true] at hterm
    cases huu : kv.uuids.lookup (pid ++ "_uuid") with
    | none =>
      rw [processWithSession_nouuid env pid kv ps hterm huu]
      exact ⟨ps, h, rfl⟩
    | some uuid =>
      rw [processWithSession_uuid env pid kv ps uuid hterm huu]
      unfold processWithUuid
      by_cases hfail : (pollWeChatLogin uuid env.rawPoll).success = false
      · rw [if_pos hfail]
        exact ⟨_, lookup_putSession_self .., rfl⟩
      · rw [if_neg hfail]
        by_cases hwx : strTruthy (pollWeChatLogin uuid env.rawPoll).wxCode = true
        · rw [if_pos hwx]
          exact processExchange_frame env pid kv _ ps h rfl
        · rw [if_neg hwx]
          exact ⟨_, lookup_putSession_self .., rfl⟩

/-- Reduction: `getPollingStatus` on a stale document rewrites it to
EXPIRED and persists. -/
theorem getPollingStatus_expired_eq (now : Int) (pid : String) (kv : KV)
    (ps : PollingStatus) (h : kv.sessions.lookup pid = some ps)
    (hexp : now - ps.timestamp > 5 * 60 * 1000) :
    getPollingStatus now pid kv =
      ({ success := true, status := some WeChatLoginStatus.EXPIRED, message := ps.message },
        kv.putSession pid { ps with status := WeChatLoginStatus.EXPIRED }) := by
  have h0 : getPollingStatus now pid kv =
      (if now - ps.timestamp > 5 * 60 * 1000 then
        ({ success := true, status := some WeChatLoginStatus.EXPIRED, message := ps.message },
          kv.putSession pid { ps with status := WeChatLoginStatus.EXPIRED })
      else ({ success := true, status := some ps.status, message := ps.message }, kv)) := by
    unfold getPollingStatus
    rw [h]
  rw [h0, if_pos hexp]

/-- Reduction: `getPollingStatus` inside the five-minute window reports the
stored document unchanged. -/
theorem getPollingStatus_fresh_eq (now : Int) (pid : String) (kv : KV)
    (ps : PollingStatus) (h : kv.sessions.lookup pid = some ps)
    (hexp : ¬ (now - ps.timestamp > 5 * 60 * 1000)) :
    getPollingStatus now pid kv =
      ({ success := true, status := some ps.status, message := ps.message }, kv) := by
  have h0 : getPollingStatus now pid kv =
      (if now - ps.timestamp > 5 * 60 * 1000 then
        ({ success := true, status := some WeChatLoginStatus.EXPIRED, message := ps.message },
          kv.putSession pid { ps with status := WeChatLoginStatus.EXPIRED })
      else ({ success := true, status := some ps.status, message := ps.message }, kv)) := by
    unfold getPollingStatus
    rw [h]
  rw [h0, if_neg hexp]

/-- Claim C10: `processPollingSession` never changes a session's
`timestamp` field: every status update it persists writes back the
timestamp read from the store, which `startPollingSession` set exactly
once at creation, and the status-query path also writes the timestamp
back unchanged — so the five-minute expiry check of `getPollingStatus`
measures time since session creation, not time since the last poll
activity. -/
theorem timestamp_never_updated :
    (∀ env pid kv ps, kv.sessions.lookup pid = some ps →
      ∃ ps', (processPollingSession env pid kv).sessions.lookup pid = some ps' ∧
        ps'.timestamp = ps.timestamp) ∧
    (∀ uuid pid now kv, (startPollingSession uuid pid now kv).sessions.lookup pid =
      some { status := WeChatLoginStatus.WAITING, timestamp := now }) ∧
    (∀ now pid kv ps, kv.sessions.lookup pid = some ps →
      ∃ ps', ((getPollingStatus now pid kv).2).sessions.lookup pid = some ps' ∧
        ps'.timestamp = ps.timestamp) := by
  refine ⟨fun env pid kv ps h => processPollingSession_frame env pid kv ps h, ?_, ?_⟩
  · intro uuid pid now kv
    exact lookup_putSession_self ..
  · intro now pid kv ps h
    by_cases hexp : now - ps.timestamp > 5 * 60 * 1000
    · rw [getPollingStatus_expired_eq now pid kv ps h hexp]
      exact ⟨_, lookup_putSession_self .., rfl⟩
    · rw [getPollingStatus_fresh_eq now pid kv ps h hexp]
      exact ⟨ps, h, rfl⟩

/-- Witness for C10: the first conjunct applied to a concrete waiting
session and a failing poll. -/
theorem timestamp_never_updated_witness :
    ∃ ps', (processPollingSession { now := 7 } "p1"
        { sessions := [("p1", { status := WeChatLoginStatus.WAITING, timestamp := 42 })],
          uuids := [("p1_uuid", "uuid-123456")] }).sessions.lookup "p1" = some ps' ∧
      ps'.timestamp = 42 :=
  timestamp_never_updated.1 { now := 7 } "p1"
    { sessions := [("p1", { status := WeChatLoginStatus.WAITING, timestamp := 42 })],
      uuids := [("p1_uuid", "uuid-123456")] }
    { status := WeChatLoginStatus.WAITING, timestamp := 42 } (by decide)

/-- Claim C5: transport or protocol failures reported while polling the
provider are captured by persisting the session in the ERROR state with
the failure message; the whole body of `processPollingSession` runs inside
a try/catch whose handler only logs, so no fault is ever raised to the
caller (the model is a total function for every oracle, including a
faulting mailer). -/
theorem poll_failure_captured_as_error_state
    (env : PollEnv) (pid uuid : String) (kv : KV) (ps : PollingStatus)
    (h : kv.sessions.lookup pid = some ps)
    (hterm : isTerminalGuard ps.status = false)
    (hu : kv.uuids.lookup (pid ++ "_uuid") = some uuid)
    (hfail : (pollWeChatLogin uuid env.rawPoll).success = false) :
    (processPollingSession env pid kv).sessions.lookup pid =
      some { ps with status := WeChatLoginStatus.ERROR,
                     message := some (pollWeChatLogin uuid env.rawPoll).message } := by
  rw [processPollingSession_eq_some env pid kv ps h,
      processWithSession_uuid env pid kv ps uuid hterm hu]
  unfold processWithUuid
  rw [if_pos hfail]
  exact lookup_putSession_self ..

/-- Witness for C5: a 500 response from the poll endpoint leaves the
session queryable in the ERROR state carrying the failure message. -/
theorem poll_failure_captured_as_error_state_witness :
    (processPollingSession { now := 0, rawPoll := { httpOk := false, httpStatus := 500 } } "p1"
        { sessions := [("p1", { status := WeChatLoginStatus.WAITING, timestamp := 0 })],
          uuids := [("p1_uuid", "uuid-123456")] }).sessions.lookup "p1" =
      some { status := WeChatLoginStatus.ERROR,
             message := some (pollWeChatLogin "uuid-123456"
               { httpOk := false, httpStatus := 500 }).message,
             timestamp := 0 } :=
  poll_failure_captured_as_error_state
    { now := 0, rawPoll := { httpOk := false, httpStatus := 500 } } "p1" "uuid-123456"
    { sessions := [("p1", { status := WeChatLoginStatus.WAITING, timestamp := 0 })],
      uuids := [("p1_uuid", "uuid-123456")] }
    { status := WeChatLoginStatus.WAITING, timestamp := 0 }
    (by decide) (by decide) (by decide) (by decide)

/-- Claim C4: a polling session whose recorded timestamp is more than the
five-minute inactivity bound before the query clock, and that is not in a
terminal state, is left persisted as EXPIRED by the next observed
`/login-status` tick (one `processPollingSession` pass followed by
`getPollingStatus`), regardless of the signal the provider returns at
that moment and regardless of the mailer oracle. -/
theorem inactive_session_expired_on_tick
    (env : PollEnv) (now2 : Int) (pid : String) (kv : KV) (ps : PollingStatus)
    (h : kv.sessions.lookup pid = some ps)
    (_hterm : ps.status ≠ WeChatLoginStatus.CONFIRMED ∧
              ps.status ≠ WeChatLoginStatus.EXPIRED ∧
              ps.status ≠ WeChatLoginStatus.ERROR)
    (hold : now2 - ps.timestamp > 5 * 60 * 1000) :
    (((loginStatusTick env now2 pid kv).2).sessions.lookup pid).map
        (fun p => p.status) = some WeChatLoginStatus.EXPIRED ∧
    (loginStatusTick env now2 pid kv).1.status = some WeChatLoginStatus.EXPIRED := by
  obtain ⟨ps1, h1, ht⟩ := processPollingSession_frame env pid kv ps h
  unfold loginStatusTick
  rw [getPollingStatus_expired_eq now2 pid _ ps1 h1 (by rw [ht]; exact hold)]
  refine ⟨?_, rfl⟩
  rw [lookup_putSession_self]
  rfl

/-- Witness for C4: a waiting session created at time 0, queried at time
300001 while the provider reports a confirmed scan, is still forced to
EXPIRED. -/
theorem inactive_session_expired_on_tick_witness :
    (((loginStatusTick
        { now := 300001, rawPoll := { errcode := some 404 } } 300001 "p1"
        { sessions := [("p1", { status := WeChatLoginStatus.WAITING, timestamp := 0 })],
          uuids := [("p1_uuid", "uuid-123456")] }).2).sessions.lookup "p1").map
        (fun p => p.status) = some WeChatLoginStatus.EXPIRED ∧
    (loginStatusTick { now := 300001, rawPoll := { errcode := some 404 } } 300001 "p1"
        { sessions := [("p1", { status := WeChatLoginStatus.WAITING, timestamp := 0 })],
          uuids := [("p1_uuid", "uuid-123456")] }).1.status =
      some WeChatLoginStatus.EXPIRED :=
  inactive_session_expired_on_tick
    { now := 300001, rawPoll := { errcode := some 404 } } 300001 "p1"
    { sessions := [("p1", { status := WeChatLoginStatus.WAITING, timestamp := 0 })],
      uuids := [("p1_uuid", "uuid-123456")] }
    { status := WeChatLoginStatus.WAITING, timestamp := 0 }
    (by decide) (by decide) (by decide)

/-- Claim C1 counterexample: the claim asserts that after any later status
query a persisted terminal status is unchanged; but a session stored as
CONFIRMED with a timestamp more than five minutes old is overwritten to
EXPIRED by `getPollingStatus`. -/
theorem confirmed_session_overwritten_by_late_status_query :
    ((getPollingStatus 300001 "p1"
        { sessions := [("p1",
            { status := WeChatLoginStatus.CONFIRMED, timestamp := 0 })] }).2).sessions.lookup
        "p1" = some { status := WeChatLoginStatus.EXPIRED, timestamp := 0 } ∧
    WeChatLoginStatus.EXPIRED ≠ WeChatLoginStatus.CONFIRMED := by
  decide

/-- Claim C1 as amended: a terminal status (CONFIRMED, EXPIRED or ERROR)
is never changed by `processPollingSession` (the tick is a no-op), and a
status query preserves it only while issued within five minutes of the
stored session timestamp; a later query overwrites it with EXPIRED. -/
theorem terminal_preservation_within_window
    (env : PollEnv) (now : Int) (pid : String) (kv : KV) (ps : PollingStatus)
    (h : kv.sessions.lookup pid = some ps)
    (hterm : ps.status = WeChatLoginStatus.CONFIRMED ∨
             ps.status = WeChatLoginStatus.EXPIRED ∨
             ps.status = WeChatLoginStatus.ERROR) :
    processPollingSession env pid kv = kv ∧
    (¬ (now - ps.timestamp > 5 * 60 * 1000) →
      (getPollingStatus now pid kv).2 = kv ∧
      (getPollingStatus now pid kv).1.status = some ps.status) ∧
    (now - ps.timestamp > 5 * 60 * 1000 →
      (getPollingStatus now pid kv).2.sessions.lookup pid =
        some { ps with status := WeChatLoginStatus.EXPIRED }) := by
  have hg : isTerminalGuard ps.status = true := by
    rcases hterm with h1 | h1 | h1 <;> rw [h1] <;> rfl
  refine ⟨?_, ?_, ?_⟩
  · rw [processPollingSession_eq_some env pid kv ps h,
        processWithSession_terminal env pid kv ps hg]
  · intro hexp
    rw [getPollingStatus_fresh_eq now pid kv ps h hexp]
    exact ⟨rfl, rfl⟩
  · intro hexp
    rw [getPollingStatus_expired_eq now pid kv ps h hexp]
    exact lookup_putSession_self ..

/-- Witness for the amended C1: a CONFIRMED session is untouched by a
tick, preserved by a query at 200ms, and flipped by a query at 300001ms. -/
theorem terminal_preservation_within_window_witness :
    processPollingSession { now := 0 } "p1"
        { sessions := [("p1", { status := WeChatLoginStatus.CONFIRMED, timestamp := 0 })] } =
      { sessions := [("p1", { status := WeChatLoginStatus.CONFIRMED, timestamp := 0 })] } ∧
    ((getPollingStatus 200 "p1"
        { sessions := [("p1", { status := WeChatLoginStatus.CONFIRMED, timestamp := 0 })] }).2 =
      { sessions := [("p1", { status := WeChatLoginStatus.CONFIRMED, timestamp := 0 })] } ∧
     (getPollingStatus 200 "p1"
        { sessions := [("p1",
            { status := WeChatLoginStatus.CONFIRMED, timestamp := 0 })] }).1.status =
      some WeChatLoginStatus.CONFIRMED) :=
  have h := terminal_preservation_within_window { now := 0 } 200 "p1"
    { sessions := [("p1", { status := WeChatLoginStatus.CONFIRMED, timestamp := 0 })] }
    { status := WeChatLoginStatus.CONFIRMED, timestamp := 0 }
    (by decide) (Or.inl rfl)
  ⟨h.1, h.2.1 (by decide)⟩

/-- Claim C7: the storage TTL for an exchanged credential is
`max(300, floor((expiresAt - now) / 1000))`, never below the 300-second
floor, and exactly 300 whenever the expiry is at or before now; `setToken`
records exactly this TTL. -/
theorem ttl_floor (e n : Int) :
    computeTtlSeconds e n = max 300 ((e - n).fdiv 1000) ∧
    300 ≤ computeTtlSeconds e n ∧
    (e ≤ n → computeTtlSeconds e n = 300) ∧
    (∀ t kv, (setToken t n kv).tokenTtl = some (computeTtlSeconds t.expire n)) := by
  refine ⟨rfl, le_max_left .., ?_, fun t kv => rfl⟩
  intro hle
  unfold computeTtlSeconds
  rw [Int.fdiv_eq_ediv _ (by norm_num)]
  have hd : (e - n) / 1000 ≤ 300 := by omega
  exact max_eq_left hd

/-- Witness for C7: an expiry five milliseconds in the past still yields
the 300-second floor. -/
theorem ttl_floor_witness : computeTtlSeconds 0 5 = 300 :=
  (ttl_floor 0 5).2.2.1 (by decide)

/-- With no valid credential the scheduler tick reduces to
`handleAuthenticationRequired`. -/
theorem scheduled_invalid_eq (now : Int) (rnd : String) (resp : Option String) (kv : KV)
    (h : isTokenValid kv.token now = false) :
    scheduled now rnd resp kv = handleAuthenticationRequired now rnd kv := by
  unfold scheduled
  cases htok : kv.token with
  | none => rfl
  | some t =>
    rw [htok] at h
    have hle : ¬ (t.expire > now) := by
      simpa [isTokenValid] using h
    show (if t.expire > now then
        if (executeCheckin t.token resp).1.success = true then (kv, (executeCheckin t.token resp).2)
        else ((handleAuthenticationRequired now rnd kv).1,
          (executeCheckin t.token resp).2 ++ (handleAuthenticationRequired now rnd kv).2)
      else handleAuthenticationRequired now rnd kv) = handleAuthenticationRequired now rnd kv
    rw [if_neg hle]

/-- Claim C6: a tick with a missing credential, or one whose expiry is not
strictly in the future, never calls the check-in endpoint; it only mints a
fresh one-time link (stored under the random token) and sends the
login-required notification. -/
theorem invalid_token_mints_link_only (now : Int) (rnd : String) (resp : Option String)
    (kv : KV) (h : isTokenValid kv.token now = false) :
    (scheduled now rnd resp kv).2 =
      [Effect.mintLink rnd, Effect.notify NotifyKind.loginRequired] ∧
    (∀ tk, Effect.checkinCall tk ∉ (scheduled now rnd resp kv).2) ∧
    (scheduled now rnd resp kv).1.onetime.lookup rnd =
      some { purpose := "wechat_auth", createdAt := now, expiresAt := some (now + 86400000) } := by
  rw [scheduled_invalid_eq now rnd resp kv h]
  refine ⟨rfl, ?_, ?_⟩
  · intro tk hmem
    simp [handleAuthenticationRequired, generateOneTimeLink] at hmem
  · simp [handleAuthenticationRequired, generateOneTimeLink, storeOneTimeLink, List.lookup]

/-- Witness for C6: a tick at time 10 with a credential expired exactly at
time 10 mints a link and notifies, with no check-in call. -/
theorem invalid_token_mints_link_only_witness :
    (scheduled 10 "r" none { token := some { token := "tok", expire := 10 } }).2 =
      [Effect.mintLink "r", Effect.notify NotifyKind.loginRequired] ∧
    (∀ tk, Effect.checkinCall tk ∉
      (scheduled 10 "r" none { token := some { token := "tok", expire := 10 } }).2) ∧
    (scheduled 10 "r" none { token := some { token := "tok", expire := 10 } }).1.onetime.lookup
        "r" = some { purpose := "wechat_auth", createdAt := 10, expiresAt := some 86400010 } :=
  invalid_token_mints_link_only 10 "r" none
    { token := some { token := "tok", expire := 10 } } (by decide)

/-- Claim C8: a stored credential record is treated as valid iff it is
non-null and its expiry is strictly greater than now; at the boundary
`now = expiresAt` it is invalid, and with an invalid record the scheduler
tick never reaches the check-in endpoint. -/
theorem token_validity_iff :
    (∀ r now, isTokenValid r now = true ↔ ∃ t, r = some t ∧ now < t.expire) ∧
    (∀ t : TokenInfo, isTokenValid (some t) t.expire = false) ∧
    (∀ now rnd resp kv, isTokenValid kv.token now = false →
      ∀ tk, Effect.checkinCall tk ∉ (scheduled now rnd resp kv).2) := by
  refine ⟨?_, ?_, ?_⟩
  · intro r now
    cases r with
    | none => simp [isTokenValid]
    | some t => simp [isTokenValid]
  · intro t
    simp [isTokenValid]
  · intro now rnd resp kv h tk hmem
    rw [scheduled_invalid_eq now rnd resp kv h] at hmem
    simp [handleAuthenticationRequired, generateOneTimeLink] at hmem

/-- Witness for C8: the boundary case and the no-check-in consequence at
concrete inputs. -/
theorem token_validity_iff_witness :
    isTokenValid (some { token := "t", expire := 5 }) 5 = false ∧
    Effect.checkinCall "x" ∉ (scheduled 0 "r" none {}).2 :=
  ⟨token_validity_iff.2.1 { token := "t", expire := 5 },
   token_validity_iff.2.2 0 "r" none {} (by decide) "x"⟩

/-- Claim C2 counterexample: with a valid credential and the domain
"already completed" rejection, the scheduler does NOT stop after the
soft-failure notification — it also mints a new login link and sends the
login-required notification, contradicting the claim that only a hard
failure falls through to re-authentication. -/
theorem soft_failure_still_triggers_reauth :
    Effect.notify NotifyKind.checkinSoftFailure ∈
      (scheduled 0 "r" (some "今日已签到")
        { token := some { token := "tok", expire := 1000 } }).2 ∧
    Effect.mintLink "r" ∈
      (scheduled 0 "r" (some "今日已签到")
        { token := some { token := "tok", expire := 1000 } }).2 ∧
    Effect.notify NotifyKind.loginRequired ∈
      (scheduled 0 "r" (some "今日已签到")
        { token := some { token := "tok", expire := 1000 } }).2 := by
  decide

/-- Claim C2 as amended: with a valid stored credential, ANY check-in
rejection — the "already completed" soft failure included — sends the
soft-failure notification and then still falls through to the
re-authentication step, minting a new login link and sending the
login-required notification; the stored credential itself is never
invalidated. -/
theorem checkin_failure_notifies_and_reauths
    (now : Int) (rnd : String) (kv : KV) (t : TokenInfo) (d : String)
    (htok : kv.token = some t)
    (hvalid : t.expire > now)
    (hfail : checkinSuccessMsg d = false) :
    (scheduled now rnd (some d) kv).2 =
      [Effect.checkinCall t.token, Effect.notify NotifyKind.checkinSoftFailure,
       Effect.mintLink rnd, Effect.notify NotifyKind.loginRequired] ∧
    (scheduled now rnd (some d) kv).1.token = some t := by
  have hsub : submitCheckIn (some d) = { success := false, message := d } := by
    simp [submitCheckIn, hfail]
  have hexec : executeCheckin t.token (some d) =
      ({ success := false, message := d },
        [Effect.checkinCall t.token, Effect.notify NotifyKind.checkinSoftFailure]) := by
    unfold executeCheckin
    rw [hsub]
    rfl
  have hs : scheduled now rnd (some d) kv =
      ((handleAuthenticationRequired now rnd kv).1,
        (executeCheckin t.token (some d)).2 ++ (handleAuthenticationRequired now rnd kv).2) := by
    unfold scheduled
    rw [htok]
    show (if t.expire > now then
        if (executeCheckin t.token (some d)).1.success = true then
          (kv, (executeCheckin t.token (some d)).2)
        else ((handleAuthenticationRequired now rnd kv).1,
          (executeCheckin t.token (some d)).2 ++ (handleAuthenticationRequired now rnd kv).2)
      else handleAuthenticationRequired now rnd kv) =
      ((handleAuthenticationRequired now rnd kv).1,
        (executeCheckin t.token (some d)).2 ++ (handleAuthenticationRequired now rnd kv).2)
    rw [if_pos hvalid, hexec]
    rfl
  rw [hs, hexec]
  exact ⟨rfl, htok⟩

/-- Witness for the amended C2: the concrete "already completed" response
with a valid credential. -/
theorem checkin_failure_notifies_and_reauths_witness :
    (scheduled 0 "r" (some "今日已签到")
        { token := some { token := "tok", expire := 1000 } }).2 =
      [Effect.checkinCall "tok", Effect.notify NotifyKind.checkinSoftFailure,
       Effect.mintLink "r", Effect.notify NotifyKind.loginRequired] ∧
    (scheduled 0 "r" (some "今日已签到")
        { token := some { token := "tok", expire := 1000 } }).1.token =
      some { token := "tok", expire := 1000 } :=
  checkin_failure_notifies_and_reauths 0 "r"
    { token := some { token := "tok", expire := 1000 } }
    { token := "tok", expire := 1000 } "今日已签到" rfl (by decide) (by decide)

/-- Claim C3, evaluated at the failing input: an exchange response that
carries a token but omits the expiry field is REJECTED by
`exchangeWeChatCode` (success false), so `processPollingSession` stores no
credential and marks the session ERROR — the documented 3-day default
horizon of `polling-service.ts` line 103 is unreachable, because a
successful exchange always carries a truthy expiry. -/
theorem missing_expiry_rejected_not_defaulted :
    (exchangeWeChatCode { dataToken := some "abc" }).success = false ∧
    (exchangeWeChatCode { dataToken := some "abc" }).token = none ∧
    (exchangeWeChatCode { dataToken := some "abc" }).message = some "❌ 获取 Token 失败" ∧
    (processPollingSession
        { now := 1000, rawPoll := { errcode := some 405, wxCode := some "wx" },
          rawExchange := { dataToken := some "abc" } } "p1"
        { sessions := [("p1", { status := WeChatLoginStatus.WAITING, timestamp := 0 })],
          uuids := [("p1_uuid", "uuid-123456")] }).token = none ∧
    (processPollingSession
        { now := 1000, rawPoll := { errcode := some 405, wxCode := some "wx" },
          rawExchange := { dataToken := some "abc" } } "p1"
        { sessions := [("p1", { status := WeChatLoginStatus.WAITING, timestamp := 0 })],
          uuids := [("p1_uuid", "uuid-123456")] }).sessions.lookup "p1" =
      some { status := WeChatLoginStatus.ERROR, message := some "❌ 获取 Token 失败",
             wxCode := some "wx", timestamp := 0 } := by
  decide

/-- Filtering out a key makes a subsequent lookup of it fail. -/
theorem lookup_filter_ne (l : List (String × OneTimeData)) (tok : String) :
    (l.filter (fun p => p.1 != tok)).lookup tok = none := by
  induction l with
  | nil => rfl
  | cons hd tl ih =>
    by_cases h : hd.1 = tok
    · simp [List.filter_cons, h, ih]
    · have hbeq : (tok == hd.1) = false := beq_eq_false_iff_ne.mpr (Ne.symm h)
      simp [List.filter_cons, List.lookup, h, hbeq, ih]

/-- Claim C9: `validateOneTimeLink` deletes the stored record as soon as
one is found — before the purpose and expiry checks — so a validation
attempt that fails those later checks still consumes the link, and every
subsequent call with the same token returns false. -/
theorem onetime_link_consumed_on_lookup
    (now now2 : Int) (tok : String) (kv : KV) (d : OneTimeData)
    (hlen : ¬ tok.length < 32)
    (h : kv.onetime.lookup tok = some d) :
    ((validateOneTimeLink now tok kv).2).onetime.lookup tok = none ∧
    (validateOneTimeLink now2 tok ((validateOneTimeLink now tok kv).2)).1 = false := by
  have hcons : consumeOneTimeLink tok kv =
      (some d, { kv with onetime := kv.onetime.filter (fun p => p.1 != tok) }) := by
    unfold consumeOneTimeLink
    rw [h]
  have hstore : (validateOneTimeLink now tok kv).2 =
      { kv with onetime := kv.onetime.filter (fun p => p.1 != tok) } := by
    unfold validateOneTimeLink
    rw [if_neg hlen, hcons]
  have hnone : ((validateOneTimeLink now tok kv).2).onetime.lookup tok = none := by
    rw [hstore]
    exact lookup_filter_ne ..
  refine ⟨hnone, ?_⟩
  have key : ∀ kv' : KV, kv'.onetime.lookup tok = none →
      (validateOneTimeLink now2 tok kv').1 = false := by
    intro kv' h'
    have hcons' : consumeOneTimeLink tok kv' = (none, kv') := by
      unfold consumeOneTimeLink
      rw [h']
    unfold validateOneTimeLink
    rw [if_neg hlen, hcons']
  exact key _ hnone

/-- Witness for C9: a stored link with the wrong purpose and a past expiry
is consumed by the failed validation, and a retry returns false. -/
theorem onetime_link_consumed_on_lookup_witness :
    ((validateOneTimeLink 50 "0123456789abcdef0123456789abcdef"
        { onetime := [("0123456789abcdef0123456789abcdef",
            { purpose := "other", createdAt := 0, expiresAt := some 1 })] }).2).onetime.lookup
        "0123456789abcdef0123456789abcdef" = none ∧
    (validateOneTimeLink 60 "0123456789abcdef0123456789abcdef"
        ((validateOneTimeLink 50 "0123456789abcdef0123456789abcdef"
          { onetime := [("0123456789abcdef0123456789abcdef",
              { purpose := "other", createdAt := 0, expiresAt := some 1 })] }).2)).1 = false :=
  onetime_link_consumed_on_lookup 50 60 "0123456789abcdef0123456789abcdef"
    { onetime := [("0123456789abcdef0123456789abcdef",
        { purpose := "other", createdAt := 0, expiresAt := some 1 })] }
    { purpose := "other", createdAt := 0, expiresAt := some 1 }
    (by decide) (by decide)
